import Mathlib

/-
Verification of the query-to-answer orchestration logic of the Harry Potter
RAG chatbot (src/config.py, src/groq_client.py, src/rag_pipeline.py).

The shallow embedding translates the Python source into Lean definitions:
  * pure string helpers mirror the Python string operations character by
    character (Python `str.lower` on the ASCII keyword sets, `str.strip`,
    slicing `[:100]`, `len`, substring tests with `in`);
  * the delegated vector-store retriever is a parameter of the pipeline
    state (`RAGState.invokeRetriever`), returning `Except` so that a raised
    library exception is representable;
  * the HTTP world of the completion client is a parameter
    `net : Nat -> HttpResult` giving the outcome of the n-th
    `requests.post` call issued in the `chat` invocation; the side effects
    of `chat` (posted payloads and `time.sleep` calls) are collected in an
    event trace;
  * Python's `hash(content[:100])` duplicate key is modelled injectively by
    the 100-character prefix itself (a hash collision is the only behaviour
    this abstracts away, and the spec itself reads the key as "shared
    prefix").
-/

namespace HPVerify

/-! ## Configuration (src/config.py) -/

namespace Config

def RETRIEVAL_K : Nat := 5

def MAX_TOKENS : Nat := 1500

def TEMPERATURE : Rat := 7 / 10

def TOP_P : Rat := 9 / 10

def REQUEST_TIMEOUT : Nat := 45

def MAX_RETRIES : Nat := 3

def DEFAULT_LLM_MODEL : String := "llama-3.1-8b-instant"

def FALLBACK_MODELS : List String :=
  ["mixtral-8x7b-32768", "llama3-8b-8192", "llama2-70b-4096"]

end Config

/-! ## String helpers mirroring the Python operations -/

/-- Python `str.lower()` (the source only matches ASCII keywords, and
`Char.toLower` lowercases exactly the basic latin letters). -/
def pyLower (s : String) : String := ⟨s.toList.map Char.toLower⟩

/-- Python `str.strip()`: drop leading and trailing whitespace. -/
def pyStrip (s : String) : String :=
  ⟨(((s.toList.dropWhile Char.isWhitespace).reverse.dropWhile Char.isWhitespace).reverse)⟩

/-- Python `s[:100]`, the duplicate-detection key of the retriever. -/
def prefixKey100 (s : String) : String := ⟨s.toList.take 100⟩

/-- Python `sep.join(parts)`. -/
def pyJoin (sep : String) : List String → String
  | [] => ""
  | [s] => s
  | s :: rest => s ++ sep ++ pyJoin sep rest

/-- Whether the first character list is a prefix of the second. -/
def listPrefixOf : List Char → List Char → Bool
  | [], _ => true
  | _ :: _, [] => false
  | a :: as, b :: bs => a == b && listPrefixOf as bs

/-- Whether the first character list occurs contiguously inside the second. -/
def listInfixOf (needle : List Char) : List Char → Bool
  | [] => listPrefixOf needle []
  | b :: bs => listPrefixOf needle (b :: bs) || listInfixOf needle bs

/-- Python `needle in hay` on strings: substring containment, as a Bool. -/
def containsSub (hay needle : String) : Bool :=
  listInfixOf needle.toList hay.toList

/-- Python `any(w in s for w in ws)`. -/
def anyIn (ws : List String) (s : String) : Bool :=
  ws.any (fun w => containsSub s w)

/-- Counts maximal whitespace-free runs; `inWord` says whether the previous
character was part of a word. -/
def countWordsAux : List Char → Bool → Nat
  | [], _ => 0
  | c :: rest, inWord =>
    if c.isWhitespace then countWordsAux rest false
    else (if inWord then 0 else 1) + countWordsAux rest true

/-- Python `len(query.split())`: number of maximal whitespace-free words. -/
def wordCount (s : String) : Nat := countWordsAux s.toList false

/-! ## Query classifier (src/rag_pipeline.py, HarryPotterRAG.analyze_query) -/

structure QueryAnalysis where
  type : String
  k_docs : Nat
  complexity : Nat
  deriving DecidableEq, Repr

def character_phrases : List String := ["who is", "tell me about", "describe", "character"]

def plot_words : List String := ["summarize", "summary", "what happens", "events", "plot"]

def detail_words : List String := ["how", "why", "what", "where", "when", "trivia"]

def comparison_words : List String := ["compare", "difference", "vs", "versus"]

/-- Embeds `HarryPotterRAG.analyze_query` (rag_pipeline.py lines 152-177). -/
def analyze_query (query : String) : QueryAnalysis :=
  let query_lower := pyLower query
  if anyIn character_phrases query_lower then
    ⟨"character_analysis", 4, wordCount query⟩
  else if anyIn plot_words query_lower then
    ⟨"plot_summary", 6, wordCount query⟩
  else if anyIn detail_words query_lower then
    ⟨"detail_query", 3, wordCount query⟩
  else if anyIn comparison_words query_lower then
    ⟨"comparison", 5, wordCount query⟩
  else
    ⟨"general", 5, wordCount query⟩

/-! ## Context retriever (src/rag_pipeline.py, HarryPotterRAG.retrieve_context) -/

/-- The pipeline state: the initialization flag and the delegated
vector-store retriever (`self.retriever.invoke`), which returns the ranked
passages (each passage is its `page_content`) or raises (`Except.error`). -/
structure RAGState where
  is_initialized : Bool
  invokeRetriever : String → Except String (List String)

/-- The dedup/length filter loop of `retrieve_context` (lines 197-212):
`seen` is the accumulated `seen_content` set of prefix keys (Python hashes
the first 100 characters; the key is modelled by the prefix itself). -/
def smartDedup : List String → List String → List String
  | [], _ => []
  | doc :: rest, seen =>
    let content := pyStrip doc
    let content_hash := prefixKey100 content
    if content_hash ∉ seen ∧ 50 < content.length then
      content :: smartDedup rest (content_hash :: seen)
    else
      smartDedup rest seen

def uninitializedErr : String := "RAG system not initialized. Call initialize() first."

/-- Embeds `HarryPotterRAG.retrieve_context` (rag_pipeline.py lines 179-212).
`Except.error` is a raised exception. -/
def retrieve_context (st : RAGState) (query : String) (analysis : Option QueryAnalysis) :
    Except String (List String) :=
  if st.is_initialized = false then
    Except.error uninitializedErr
  else
    let analysis := analysis.getD (analyze_query query)
    match st.invokeRetriever query with
    | Except.error e => Except.error e
    | Except.ok context_docs =>
      if context_docs.isEmpty then
        Except.ok []
      else
        Except.ok (smartDedup (context_docs.take analysis.k_docs) [])

/-! ## Prompt composer (src/rag_pipeline.py, HarryPotterRAG.create_enhanced_prompt) -/

def base_instructions : String :=
  "You are an expert on the Harry Potter series with deep knowledge of all seven books. Use the provided context to answer the user's question comprehensively and accurately."

/-- The `type_instructions` dict lookup with `.get(_, general)` default. -/
def type_instructions (t : String) : String :=
  if t = "character_analysis" then
    "Focus on character development, personality traits, relationships, and key moments. Reference specific books when possible."
  else if t = "plot_summary" then
    "Organize information chronologically and provide a comprehensive overview of events. Include key details and outcomes."
  else if t = "detail_query" then
    "Be specific and precise with facts. Provide exact details and reference the source material."
  else if t = "comparison" then
    "Clearly contrast the different elements being compared. Use structured comparisons and specific examples."
  else
    "Provide a well-rounded answer that covers all relevant aspects of the topic."

/-- Embeds `HarryPotterRAG.create_enhanced_prompt` (rag_pipeline.py lines 214-249). -/
def create_enhanced_prompt (query : String) (context_parts : List String)
    (analysis : QueryAnalysis) : String :=
  let context := pyJoin "\n\n---\n\n" context_parts
  let specific_instruction := type_instructions analysis.type
  base_instructions ++ "\n\n**Context from Harry Potter books:**\n" ++ context ++
    "\n\n**User Question:** " ++ query ++
    "\n\n**Instructions:**\n- " ++ specific_instruction ++
    "\n- Reference specific books, characters, or events when relevant" ++
    "\n- If you're not completely certain about something, acknowledge it" ++
    "\n- Keep the magical tone but be informative and accurate" ++
    "\n- Structure your response clearly\n\n**Answer:**"

/-! ## Completion client (src/groq_client.py, GroqClient.chat) -/

/-- The outcome of one `requests.post` call: a completed HTTP response (for
status 200 `text` is the parsed `choices[0].message.content`), a
`requests.exceptions.Timeout`, or any other raised exception. -/
inductive HttpResult where
  | status (code : Nat) (text : String)
  | timeout
  | exn (msg : String)
  deriving DecidableEq, Repr

/-- The JSON payload of one request (groq_client.py lines 53-59). -/
structure Payload where
  model : String
  messages : List (String × String)
  max_tokens : Nat
  temperature : Rat
  top_p : Rat
  deriving DecidableEq, Repr

/-- An observable side effect of `chat`: an HTTP POST or a `time.sleep`. -/
inductive ChatEvent where
  | post (payload : Payload)
  | sleep (seconds : Nat)
  deriving DecidableEq, Repr

def system_message : String :=
  "You are a knowledgeable Harry Potter expert and helpful assistant. Provide detailed, accurate answers based on the given context. Reference specific books, characters, or events when possible. Maintain a warm, knowledgeable tone while being precise and informative."

def mkMessages (prompt : String) : List (String × String) :=
  [("system", system_message), ("user", prompt)]

def mkPayload (model prompt : String) (max_tokens : Nat) (temperature : Rat) : Payload :=
  ⟨model, mkMessages prompt, max_tokens, temperature, Config.TOP_P⟩

/-- `self.models = [config.DEFAULT_LLM_MODEL] + config.FALLBACK_MODELS`. -/
def models : List String := Config.DEFAULT_LLM_MODEL :: Config.FALLBACK_MODELS

def allFailedMsg : String :=
  "🚫 All language models are currently unavailable. Please try again later."

/-- Python `max_tokens = max_tokens or config.MAX_TOKENS`: `None` and the
falsy `0` both collapse to the config default. -/
def effMaxTokens : Option Nat → Nat
  | none => Config.MAX_TOKENS
  | some v => if v = 0 then Config.MAX_TOKENS else v

/-- Python `temperature = temperature or config.TEMPERATURE`. -/
def effTemperature : Option Rat → Rat
  | none => Config.TEMPERATURE
  | some v => if v = 0 then Config.TEMPERATURE else v

/-- Python `models_to_try = [model] if model else self.models` (an empty
string is falsy). -/
def modelsToTry : Option String → List String
  | none => models
  | some m => if m = "" then models else [m]

/-- The inner `for retry in range(config.MAX_RETRIES)` loop of `chat`
(groq_client.py lines 51-109) for one model. `fuel` is the number of retry
iterations left (initially `MAX_RETRIES`), `retry` the current retry index,
`idx` the index of the next `requests.post` in this `chat` call, `trace`
the events so far. Returns `some text` on HTTP 200 (immediate return from
`chat`), `none` when the model's retry budget is exhausted (fall through to
the next model), with the updated call index and trace. -/
def chatModelLoop (net : Nat → HttpResult) (prompt : String) (mt : Nat) (temp : Rat)
    (model : String) : Nat → Nat → Nat → List ChatEvent →
    Option String × Nat × List ChatEvent
  | 0, _, idx, trace => (none, idx, trace)
  | fuel + 1, retry, idx, trace =>
    let trace1 := trace ++ [ChatEvent.post (mkPayload model prompt mt temp)]
    match net idx with
    | HttpResult.status code text =>
      if code = 200 then
        (some text, idx + 1, trace1)
      else if code = 429 then
        let trace2 := trace1 ++ [ChatEvent.sleep (2 ^ retry)]
        if fuel = 0 then (none, idx + 1, trace2)
        else chatModelLoop net prompt mt temp model fuel (retry + 1) (idx + 1) trace2
      else
        if fuel = 0 then (none, idx + 1, trace1)
        else chatModelLoop net prompt mt temp model fuel (retry + 1) (idx + 1) trace1
    | HttpResult.timeout =>
      if fuel = 0 then (none, idx + 1, trace1)
      else chatModelLoop net prompt mt temp model fuel (retry + 1) (idx + 1)
        (trace1 ++ [ChatEvent.sleep 1])
    | HttpResult.exn _ =>
      if fuel = 0 then (none, idx + 1, trace1)
      else chatModelLoop net prompt mt temp model fuel (retry + 1) (idx + 1)
        (trace1 ++ [ChatEvent.sleep 1])

/-- The outer `for attempt, current_model in enumerate(models_to_try)` loop:
on exhaustion of every model returns the fixed sentinel (line 112). -/
def chatModelsLoop (net : Nat → HttpResult) (prompt : String) (mt : Nat) (temp : Rat) :
    List String → Nat → List ChatEvent → String × List ChatEvent
  | [], _, trace => (allFailedMsg, trace)
  | m :: rest, idx, trace =>
    match chatModelLoop net prompt mt temp m Config.MAX_RETRIES 0 idx trace with
    | (some text, _, trace1) => (text, trace1)
    | (none, idx1, trace1) => chatModelsLoop net prompt mt temp rest idx1 trace1

/-- Embeds `GroqClient.chat` (groq_client.py lines 19-112). The returned
pair is the result string and the trace of HTTP posts and sleeps. -/
def chat (net : Nat → HttpResult) (prompt : String) (model : Option String)
    (max_tokens : Option Nat) (temperature : Option Rat) : String × List ChatEvent :=
  chatModelsLoop net prompt (effMaxTokens max_tokens) (effTemperature temperature)
    (modelsToTry model) 0 []

/-! ## Response assembler (src/rag_pipeline.py, HarryPotterRAG.generate_response) -/

/-- Python `str.title()` on our type tags: capitalize the first letter of
every alphabetic run, lowercase the rest. -/
def titleAux : List Char → Bool → List Char
  | [], _ => []
  | c :: rest, prevAlpha =>
    (if c.isAlpha then (if prevAlpha then c.toLower else c.toUpper) else c) ::
      titleAux rest c.isAlpha

def pyTitle (s : String) : String := ⟨titleAux s.toList false⟩

/-- Python `s.replace(Char.ofNat 95, Char.ofNat 32)`, i.e. underscores to spaces. -/
def underscoreToSpace (s : String) : String :=
  ⟨s.toList.map (fun c => if c = '_' then ' ' else c)⟩

def error_words : List String := ["sorry", "error", "failed", "unavailable"]

/-- Python `any(error_word in response.lower() for error_word in [...])`. -/
def containsErrorWord (response : String) : Bool :=
  error_words.any (fun w => containsSub (pyLower response) w)

def blankQueryMsg : String := "🪄 Please cast a question spell by typing your query!"

def notInitializedMsg : String := "🚨 RAG system not initialized. Please check the setup."

def noContextMsg : String :=
  "🔍 I couldn't find relevant information in the Harry Potter books for your query. Try rephrasing your question or asking about specific characters, events, or magical elements."

/-- The success wrapper of `generate_response` (rag_pipeline.py lines 282-288):
the completion text with source-count and query-type annotations. -/
def format_final (response : String) (num_sources : Nat) (qtype : String) : String :=
  "🔮 **Magical Knowledge Retrieved:**\n\n" ++ response ++
    "\n\n---\n✨ *Answer compiled from " ++ toString num_sources ++
    " relevant passages across the Harry Potter books*  \n🏰 *Query type: " ++
    pyTitle (underscoreToSpace qtype) ++ "*"

def magicalResponsePrefix : String := "🧙‍♂️ **Magical Response:** "

def spellMalfunction (e : String) : String :=
  "🚨 **Spell Malfunction:** An error occurred in the magical pipeline: " ++ e

/-- Embeds `HarryPotterRAG.generate_response` (rag_pipeline.py lines 251-297).
The `try`/`except` block is the final `match`: an `Except.error` escaping the
body is converted to the Spell Malfunction string. The second component is
the completion client's event trace, empty when `chat` was never invoked. -/
def generate_response (st : RAGState) (net : Nat → HttpResult) (query : String) :
    String × List ChatEvent :=
  let body : Except String (String × List ChatEvent) :=
    if pyStrip query = "" then
      Except.ok (blankQueryMsg, [])
    else if st.is_initialized = false then
      Except.ok (notInitializedMsg, [])
    else
      let q := pyStrip query
      let analysis := analyze_query q
      match retrieve_context st q (some analysis) with
      | Except.error e => Except.error e
      | Except.ok context_parts =>
        if context_parts.isEmpty then
          Except.ok (noContextMsg, [])
        else
          let prompt := create_enhanced_prompt q context_parts analysis
          let res := chat net prompt none none none
          if res.1 ≠ "" ∧ containsErrorWord res.1 = false then
            Except.ok (format_final res.1 context_parts.length analysis.type, res.2)
          else
            Except.ok (magicalResponsePrefix ++ res.1, res.2)
  match body with
  | Except.ok r => r
  | Except.error e => (spellMalfunction e, [])

/-! ## Claim theorems -/

/-- C1: for every query, if context retrieval returns zero passages,
`generate_response` returns the fixed no-information message and the
completion client is never invoked in that call (the chat event trace of
the call is empty: no HTTP post, no sleep). -/
theorem c1_generate_response_empty_context_short_circuit
    (st : RAGState) (net : Nat → HttpResult) (query : String)
    (hq : pyStrip query ≠ "") (hinit : st.is_initialized = true)
    (hret : retrieve_context st (pyStrip query) (some (analyze_query (pyStrip query))) =
      Except.ok []) :
    generate_response st net query = (noContextMsg, []) := by
  simp [generate_response, hq, hinit, hret]

theorem c1_witness :
    pyStrip "expecto" ≠ "" ∧
    generate_response ⟨true, fun _ => Except.ok []⟩
      (fun _ => HttpResult.status 200 "x") "expecto" = (noContextMsg, []) :=
  ⟨by decide,
   c1_generate_response_empty_context_short_circuit _ _ _ (by decide) rfl rfl⟩

/-- C3: every exception raised inside the `generate_response` chain is caught
and converted to the Spell Malfunction user-facing string; no exception
propagates to the caller. In the source the classifier and the prompt
composer are pure string code and the completion client catches all its
exceptions internally (it is total, see C2), so the fault channel is the
delegated retriever invocation, modelled by `RAGState.invokeRetriever`
returning `Except.error`. -/
theorem c3_generate_response_catches_exceptions
    (st : RAGState) (net : Nat → HttpResult) (query : String) (e : String)
    (hq : pyStrip query ≠ "") (hinit : st.is_initialized = true)
    (herr : st.invokeRetriever (pyStrip query) = Except.error e) :
    generate_response st net query = (spellMalfunction e, []) := by
  simp [generate_response, retrieve_context, hq, hinit, herr]

theorem c3_witness :
    generate_response ⟨true, fun _ => Except.error "boom"⟩
      (fun _ => HttpResult.status 200 "x") "expecto" = (spellMalfunction "boom", []) :=
  c3_generate_response_catches_exceptions _ _ _ _ (by decide) rfl rfl

/-- C7: `retrieve_context` raises (returns the uninitialized error) when the
pipeline is not initialized; when it is initialized and the vector store
yields no matching passages, it returns the empty sequence, not an error. -/
theorem c7_retrieve_context_uninitialized_or_empty
    (st : RAGState) (query : String) (analysis : Option QueryAnalysis) :
    (st.is_initialized = false →
      retrieve_context st query analysis = Except.error uninitializedErr) ∧
    (st.is_initialized = true → st.invokeRetriever query = Except.ok [] →
      retrieve_context st query analysis = Except.ok []) := by
  refine ⟨fun h => ?_, fun h hr => ?_⟩
  · simp [retrieve_context, h]
  · simp [retrieve_context, h, hr]

theorem c7_witness :
    retrieve_context ⟨false, fun _ => Except.ok ["x"]⟩ "q" none =
      Except.error uninitializedErr ∧
    retrieve_context ⟨true, fun _ => Except.ok []⟩ "q" none = Except.ok [] :=
  ⟨(c7_retrieve_context_uninitialized_or_empty _ _ _).1 rfl,
   (c7_retrieve_context_uninitialized_or_empty _ _ _).2 rfl rfl⟩

/-- C10: `chat` collapses falsy explicit overrides into the configured
defaults: passing `max_tokens = 0` behaves identically to omitting it, and
passing `temperature = 0.0` behaves identically to omitting it (the config
defaults are used in the request payloads); result and full event trace
coincide. -/
theorem c10_chat_falsy_overrides_collapse
    (net : Nat → HttpResult) (prompt : String) (model : Option String)
    (mt : Option Nat) (temp : Option Rat) :
    chat net prompt model (some 0) temp = chat net prompt model none temp ∧
    chat net prompt model mt (some 0) = chat net prompt model mt none := by
  refine ⟨?_, ?_⟩ <;> simp [chat, effMaxTokens, effTemperature]

/-- C5 counterexample: the claim says every query containing "compare" or
"vs" is classified as comparison, but the comparison keyword set is checked
only after the character-analysis phrases, the plot/summary words and the
question words, each of which wins here: a query with "compare" and "how"
is a detail_query, one with "vs" and "tell me about" is character_analysis,
one with "vs" and "summarize" is plot_summary. -/
theorem c5_counterexample :
    (containsSub (pyLower "how do harry and draco compare") "compare" = true ∧
      (analyze_query "how do harry and draco compare").type = "detail_query" ∧
      (analyze_query "how do harry and draco compare").type ≠ "comparison") ∧
    (containsSub (pyLower "tell me about harry vs voldemort") "vs" = true ∧
      (analyze_query "tell me about harry vs voldemort").type = "character_analysis") ∧
    (containsSub (pyLower "summarize harry vs voldemort") "vs" = true ∧
      (analyze_query "summarize harry vs voldemort").type = "plot_summary") := by
  decide

/-- C5 as amended: a query containing "who is" (case-insensitively) is
classified character_analysis with k_docs 4; a query containing "compare"
or "vs" that contains none of the character-analysis phrases, plot/summary
words or question words is classified comparison (k_docs 5); a query
matching no keyword set defaults to general with k_docs 5. -/
theorem c5_analyze_query_keywords (q : String) :
    (containsSub (pyLower q) "who is" = true →
      (analyze_query q).type = "character_analysis" ∧ (analyze_query q).k_docs = 4) ∧
    ((containsSub (pyLower q) "compare" = true ∨ containsSub (pyLower q) "vs" = true) →
      anyIn character_phrases (pyLower q) = false →
      anyIn plot_words (pyLower q) = false →
      anyIn detail_words (pyLower q) = false →
      (analyze_query q).type = "comparison" ∧ (analyze_query q).k_docs = 5) ∧
    (anyIn character_phrases (pyLower q) = false →
      anyIn plot_words (pyLower q) = false →
      anyIn detail_words (pyLower q) = false →
      anyIn comparison_words (pyLower q) = false →
      (analyze_query q).type = "general" ∧ (analyze_query q).k_docs = 5) := by
  refine ⟨fun h => ?_, fun h h1 h2 h3 => ?_, fun h1 h2 h3 h4 => ?_⟩
  · have hc : anyIn character_phrases (pyLower q) = true := by
      simp only [anyIn, character_phrases, List.any_cons, List.any_nil, Bool.or_eq_true]
      tauto
    simp [analyze_query, hc]
  · have hc : anyIn comparison_words (pyLower q) = true := by
      simp only [anyIn, comparison_words, List.any_cons, List.any_nil, Bool.or_eq_true]
      tauto
    simp [analyze_query, h1, h2, h3, hc]
  · simp [analyze_query, h1, h2, h3, h4]

theorem c5_witness :
    ((analyze_query "who is hagrid").type = "character_analysis" ∧
      (analyze_query "who is hagrid").k_docs = 4) ∧
    ((analyze_query "harry vs draco").type = "comparison" ∧
      (analyze_query "harry vs draco").k_docs = 5) ∧
    ((analyze_query "hogwarts castle").type = "general" ∧
      (analyze_query "hogwarts castle").k_docs = 5) :=
  ⟨(c5_analyze_query_keywords "who is hagrid").1 (by decide),
   (c5_analyze_query_keywords "harry vs draco").2.1 (Or.inr (by decide))
     (by decide) (by decide) (by decide),
   (c5_analyze_query_keywords "hogwarts castle").2.2
     (by decide) (by decide) (by decide) (by decide)⟩

/-- C8: the classifier lowercases the query and scans the fixed keyword
sets in the fixed priority order (character-analysis phrases, then
plot/summary words, then question words, then comparison words, then the
general default); the first matching category wins with its fixed k_docs,
every returned k_docs lies in the set 3, 4, 5, 6, and the result is
case-insensitive in type and k_docs. `analyze_query` is a pure Lean
function, so determinism and absence of side effects hold by construction. -/
theorem c8_analyze_query_priority_order :
    (∀ q : String,
      (anyIn character_phrases (pyLower q) = true →
        analyze_query q = ⟨"character_analysis", 4, wordCount q⟩) ∧
      (anyIn character_phrases (pyLower q) = false →
        anyIn plot_words (pyLower q) = true →
        analyze_query q = ⟨"plot_summary", 6, wordCount q⟩) ∧
      (anyIn character_phrases (pyLower q) = false →
        anyIn plot_words (pyLower q) = false →
        anyIn detail_words (pyLower q) = true →
        analyze_query q = ⟨"detail_query", 3, wordCount q⟩) ∧
      (anyIn character_phrases (pyLower q) = false →
        anyIn plot_words (pyLower q) = false →
        anyIn detail_words (pyLower q) = false →
        anyIn comparison_words (pyLower q) = true →
        analyze_query q = ⟨"comparison", 5, wordCount q⟩) ∧
      (anyIn character_phrases (pyLower q) = false →
        anyIn plot_words (pyLower q) = false →
        anyIn detail_words (pyLower q) = false →
        anyIn comparison_words (pyLower q) = false →
        analyze_query q = ⟨"general", 5, wordCount q⟩) ∧
      (analyze_query q).k_docs ∈ [3, 4, 5, 6]) ∧
    (∀ q1 q2 : String, pyLower q1 = pyLower q2 →
      (analyze_query q1).type = (analyze_query q2).type ∧
      (analyze_query q1).k_docs = (analyze_query q2).k_docs) := by
  constructor
  · intro q
    refine ⟨fun h1 => ?_, fun h1 h2 => ?_, fun h1 h2 h3 => ?_,
      fun h1 h2 h3 h4 => ?_, fun h1 h2 h3 h4 => ?_, ?_⟩
    · simp [analyze_query, h1]
    · simp [analyze_query, h1, h2]
    · simp [analyze_query, h1, h2, h3]
    · simp [analyze_query, h1, h2, h3, h4]
    · simp [analyze_query, h1, h2, h3, h4]
    · unfold analyze_query
      cases h1 : anyIn character_phrases (pyLower q) <;>
        cases h2 : anyIn plot_words (pyLower q) <;>
          cases h3 : anyIn detail_words (pyLower q) <;>
            cases h4 : anyIn comparison_words (pyLower q) <;>
              simp [h1, h2, h3, h4]
  · intro q1 q2 h
    unfold analyze_query
    rw [h]
    cases h1 : anyIn character_phrases (pyLower q2) <;>
      cases h2 : anyIn plot_words (pyLower q2) <;>
        cases h3 : anyIn detail_words (pyLower q2) <;>
          cases h4 : anyIn comparison_words (pyLower q2) <;>
            simp [h1, h2, h3, h4]

theorem c8_witness :
    analyze_query "who is hagrid" =
      ⟨"character_analysis", 4, wordCount "who is hagrid"⟩ ∧
    (analyze_query "hello there").k_docs ∈ [3, 4, 5, 6] ∧
    ((analyze_query "WHO IS Hagrid").type = (analyze_query "who is hagrid").type ∧
      (analyze_query "WHO IS Hagrid").k_docs = (analyze_query "who is hagrid").k_docs) :=
  ⟨(c8_analyze_query_priority_order.1 "who is hagrid").1 (by decide),
   (c8_analyze_query_priority_order.1 "hello there").2.2.2.2.2,
   c8_analyze_query_priority_order.2 "WHO IS Hagrid" "who is hagrid" (by decide)⟩

/-! ## C4: the retriever's filter pipeline -/

/-- First-occurrence deduplication by key: keep a passage unless its key was
already seen among the kept passages. -/
def dedupFirstAux (key : String → String) : List String → List String → List String
  | [], _ => []
  | p :: rest, seen =>
    if key p ∈ seen then dedupFirstAux key rest seen
    else p :: dedupFirstAux key rest (key p :: seen)

/-- Modelled from the words of claim C4 (not from the source), for the
refutation: apply filter (a) to the ranked passages, dropping those shorter
than 50 characters, then filter (b), dropping later occurrences of a shared
first-100-character prefix, and cap the survivors at `k`. -/
def claimedRetrieve (docs : List String) (k : Nat) : List String :=
  (dedupFirstAux prefixKey100 (docs.filter (fun p => decide (¬ p.length < 50))) []).take k

def exD1 : String := ⟨List.replicate 50 'a'⟩

def exD2 : String := "   " ++ (⟨List.replicate 48 'b'⟩ : String) ++ "   "

def exD3 : String := ⟨List.replicate 60 'c'⟩

def exD4 : String := ⟨List.replicate 60 'd'⟩

def exDocs : List String := [exD1, exD2, exD3, exD4]

def exState : RAGState := ⟨true, fun _ => Except.ok exDocs⟩

/-- C4 counterexample: on the query "how" (k_docs 3) with ranked passages
[50 letters a; 48 letters b padded by spaces to 54; 60 letters c; 60
letters d], the claimed pipeline (filter length < 50, dedup, cap at 3)
keeps the first three passages, but `retrieve_context` returns only the
third: the code truncates to the first k_docs before filtering, strips
each passage, and drops stripped length at most 50 (not only length
strictly below 50). -/
theorem c4_counterexample :
    (analyze_query "how").k_docs = 3 ∧
    retrieve_context exState "how" none = Except.ok [exD3] ∧
    claimedRetrieve exDocs 3 = [exD1, exD2, exD3] ∧
    ([exD3] : List String) ≠ [exD1, exD2, exD3] :=
  ⟨by decide, rfl, by decide, by decide⟩

/-- The single-pass loop of the source equals length-filtering the stripped
passages and then deduplicating by first occurrence of the 100-character
prefix: a passage dropped for length never enters the seen set, so the two
staged filters commute with the fused loop. -/
theorem smartDedup_eq_filter_dedup (l : List String) :
    ∀ seen, smartDedup l seen =
      dedupFirstAux prefixKey100
        ((l.map pyStrip).filter (fun s => decide (50 < s.length))) seen := by
  induction l with
  | nil => intro seen; rfl
  | cons d rest ih =>
    intro seen
    by_cases hl : 50 < (pyStrip d).length
    · by_cases hm : prefixKey100 (pyStrip d) ∈ seen
      · simp [smartDedup, hl, hm, dedupFirstAux, ih]
      · simp [smartDedup, hl, hm, dedupFirstAux, ih]
    · simp [smartDedup, hl, ih]

/-- C4 as amended: `retrieve_context` first truncates the ranked passages
to the first k_docs, strips each of surrounding whitespace, then drops
stripped passages of length at most 50 (keeping only those longer than
50), then drops passages whose stripped first-100-character prefix already
occurred among the kept passages; the surviving stripped passages are
returned in their original relevance order. -/
theorem c4_retrieve_context_filters (st : RAGState) (query : String)
    (a : QueryAnalysis) (docs : List String)
    (hinit : st.is_initialized = true)
    (hdocs : st.invokeRetriever query = Except.ok docs) :
    retrieve_context st query (some a) =
      Except.ok (dedupFirstAux prefixKey100
        (((docs.take a.k_docs).map pyStrip).filter (fun s => decide (50 < s.length))) []) := by
  simp only [retrieve_context, hinit, hdocs]
  cases docs with
  | nil => simp [dedupFirstAux]
  | cons d ds => simp [smartDedup_eq_filter_dedup]

theorem c4_witness :
    retrieve_context exState "how" (some ⟨"detail_query", 3, 1⟩) =
      Except.ok (dedupFirstAux prefixKey100
        (((exDocs.take 3).map pyStrip).filter (fun s => decide (50 < s.length))) []) :=
  c4_retrieve_context_filters exState "how" ⟨"detail_query", 3, 1⟩ exDocs rfl rfl

/-! ## Completion client lemmas (C2, C6) -/

/-- Whether one HTTP outcome is a success (status 200). -/
def isSuccess : HttpResult → Bool
  | HttpResult.status code _ => code == 200
  | _ => false

def isPost : ChatEvent → Bool
  | ChatEvent.post _ => true
  | ChatEvent.sleep _ => false

/-- The number of HTTP POST calls recorded in a trace. -/
def countPosts (trace : List ChatEvent) : Nat := (trace.filter isPost).length

theorem countPosts_append (t1 t2 : List ChatEvent) :
    countPosts (t1 ++ t2) = countPosts t1 + countPosts t2 := by
  simp [countPosts, List.filter_append]

theorem countPosts_post (t : List ChatEvent) (p : Payload) :
    countPosts (t ++ [ChatEvent.post p]) = countPosts t + 1 := by
  simp [countPosts_append, countPosts, isPost]

theorem countPosts_sleep (t : List ChatEvent) (n : Nat) :
    countPosts (t ++ [ChatEvent.sleep n]) = countPosts t := by
  simp [countPosts_append, countPosts, isPost]

/-- If no POST in the window of one model's retry loop succeeds, the loop
falls through to the next model (`none`), after exactly `fuel` calls and
`fuel` recorded posts. -/
theorem chatModelLoop_no_success (net : Nat → HttpResult) (prompt : String)
    (mt : Nat) (temp : Rat) (model : String) :
    ∀ fuel retry idx trace,
      (∀ m, idx ≤ m → m < idx + fuel → isSuccess (net m) = false) →
      (chatModelLoop net prompt mt temp model fuel retry idx trace).1 = none ∧
      (chatModelLoop net prompt mt temp model fuel retry idx trace).2.1 = idx + fuel ∧
      countPosts (chatModelLoop net prompt mt temp model fuel retry idx trace).2.2 =
        countPosts trace + fuel := by
  intro fuel
  induction fuel with
  | zero => intro retry idx trace _; exact ⟨rfl, rfl, by simp [chatModelLoop]⟩
  | succ f ih =>
    intro retry idx trace h
    have hidx : isSuccess (net idx) = false := h idx (Nat.le_refl idx) (by omega)
    have hnext : ∀ m, idx + 1 ≤ m → m < idx + 1 + f → isSuccess (net m) = false :=
      fun m hm1 hm2 => h m (by omega) (by omega)
    cases hnet : net idx with
    | status code text =>
      rw [hnet] at hidx
      have hc : ¬ code = 200 := by
        intro hc; subst hc; simp [isSuccess] at hidx
      by_cases h429 : code = 429
      · by_cases hf : f = 0
        · subst hf
          simp [chatModelLoop, hnet, hc, h429, countPosts, List.filter_append, isPost]
        · have hrec := ih (retry + 1) (idx + 1)
            (trace ++ [ChatEvent.post (mkPayload model prompt mt temp),
              ChatEvent.sleep (2 ^ retry)]) hnext
          simp only [chatModelLoop, hnet, if_neg hc, if_pos h429, if_neg hf,
            List.append_assoc, List.cons_append, List.nil_append]
          refine ⟨hrec.1, by rw [hrec.2.1]; omega, ?_⟩
          rw [hrec.2.2, countPosts_append]
          simp [countPosts, isPost]
          omega
      · by_cases hf : f = 0
        · subst hf
          simp [chatModelLoop, hnet, hc, h429, countPosts, List.filter_append, isPost]
        · have hrec := ih (retry + 1) (idx + 1)
            (trace ++ [ChatEvent.post (mkPayload model prompt mt temp)]) hnext
          simp only [chatModelLoop, hnet, if_neg hc, if_neg h429, if_neg hf]
          refine ⟨hrec.1, by rw [hrec.2.1]; omega, ?_⟩
          rw [hrec.2.2, countPosts_post]
          omega
    | timeout =>
      by_cases hf : f = 0
      · subst hf
        simp [chatModelLoop, hnet, countPosts, List.filter_append, isPost]
      · have hrec := ih (retry + 1) (idx + 1)
          (trace ++ [ChatEvent.post (mkPayload model prompt mt temp),
            ChatEvent.sleep 1]) hnext
        simp only [chatModelLoop, hnet, if_neg hf,
          List.append_assoc, List.cons_append, List.nil_append]
        refine ⟨hrec.1, by rw [hrec.2.1]; omega, ?_⟩
        rw [hrec.2.2, countPosts_append]
        simp [countPosts, isPost]
        omega
    | exn msg =>
      by_cases hf : f = 0
      · subst hf
        simp [chatModelLoop, hnet, countPosts, List.filter_append, isPost]
      · have hrec := ih (retry + 1) (idx + 1)
          (trace ++ [ChatEvent.post (mkPayload model prompt mt temp),
            ChatEvent.sleep 1]) hnext
        simp only [chatModelLoop, hnet, if_neg hf,
          List.append_assoc, List.cons_append, List.nil_append]
        refine ⟨hrec.1, by rw [hrec.2.1]; omega, ?_⟩
        rw [hrec.2.2, countPosts_append]
        simp [countPosts, isPost]
        omega

/-- If no POST ever succeeds, the outer model loop exhausts every model and
returns the fixed sentinel, after MAX_RETRIES posts per model. -/
theorem chatModelsLoop_no_success (net : Nat → HttpResult) (prompt : String)
    (mt : Nat) (temp : Rat) (hfail : ∀ n, isSuccess (net n) = false) :
    ∀ ms idx trace,
      (chatModelsLoop net prompt mt temp ms idx trace).1 = allFailedMsg ∧
      countPosts (chatModelsLoop net prompt mt temp ms idx trace).2 =
        countPosts trace + Config.MAX_RETRIES * ms.length := by
  intro ms
  induction ms with
  | nil => intro idx trace; exact ⟨rfl, by simp [chatModelsLoop]⟩
  | cons m rest ih =>
    intro idx trace
    have hm := chatModelLoop_no_success net prompt mt temp m Config.MAX_RETRIES 0 idx trace
      (fun k _ _ => hfail k)
    simp only [chatModelsLoop]
    rcases hR : chatModelLoop net prompt mt temp m Config.MAX_RETRIES 0 idx trace with
      ⟨o, idx1, tr1⟩
    rw [hR] at hm
    cases o with
    | some text => simp at hm
    | none =>
      have hrest := ih idx1 tr1
      dsimp only
      have h1 : countPosts tr1 = countPosts trace + Config.MAX_RETRIES := by
        simpa using hm.2.2
      refine ⟨hrest.1, ?_⟩
      rw [hrest.2, h1]
      simp only [List.length_cons, Config.MAX_RETRIES]
      ring

/-- C2: for every prompt and every sequence of non-200 responses, if every
model in the attempt order exhausts its retry budget of MAX_RETRIES (3)
attempts without an HTTP 200, `chat` returns the fixed unavailability
sentinel; `chat` is a total function into `String`, so it never raises to
its caller, and with the default model list it makes exactly
MAX_RETRIES * 4 = 12 POST calls. -/
theorem c2_chat_exhaustion_returns_sentinel (net : Nat → HttpResult)
    (prompt : String) (model : Option String) (mt : Option Nat) (temp : Option Rat)
    (hfail : ∀ n, isSuccess (net n) = false) :
    (chat net prompt model mt temp).1 = allFailedMsg ∧
    countPosts (chat net prompt none none none).2 = Config.MAX_RETRIES * models.length := by
  refine ⟨?_, ?_⟩
  · exact (chatModelsLoop_no_success net prompt _ _ hfail (modelsToTry model) 0 []).1
  · have := (chatModelsLoop_no_success net prompt
      (effMaxTokens none) (effTemperature none) hfail models 0 []).2
    simpa [chat, modelsToTry, countPosts] using this

theorem c2_witness :
    (chat (fun _ => HttpResult.status 500 "oops") "hello" none none none).1 =
      allFailedMsg ∧
    countPosts (chat (fun _ => HttpResult.status 500 "oops") "hello" none none none).2 =
      Config.MAX_RETRIES * models.length :=
  c2_chat_exhaustion_returns_sentinel (fun _ => HttpResult.status 500 "oops")
    "hello" none none none (fun _ => rfl)

/-- One model-loop run only ever appends to the incoming trace. -/
theorem chatModelLoop_trace_mono (net : Nat → HttpResult) (prompt : String)
    (mt : Nat) (temp : Rat) (model : String) :
    ∀ fuel retry idx trace, ∃ s,
      (chatModelLoop net prompt mt temp model fuel retry idx trace).2.2 = trace ++ s := by
  intro fuel
  induction fuel with
  | zero => intro retry idx trace; exact ⟨[], by simp [chatModelLoop]⟩
  | succ f ih =>
    intro retry idx trace
    cases hnet : net idx with
    | status code text =>
      by_cases hc : code = 200
      · subst hc
        exact ⟨[ChatEvent.post (mkPayload model prompt mt temp)],
          by simp [chatModelLoop, hnet]⟩
      · by_cases h429 : code = 429
        · by_cases hf : f = 0
          · subst hf
            exact ⟨[ChatEvent.post (mkPayload model prompt mt temp),
              ChatEvent.sleep (2 ^ retry)], by simp [chatModelLoop, hnet, hc, h429]⟩
          · obtain ⟨s, hs⟩ := ih (retry + 1) (idx + 1) (trace ++
              [ChatEvent.post (mkPayload model prompt mt temp), ChatEvent.sleep (2 ^ retry)])
            refine ⟨[ChatEvent.post (mkPayload model prompt mt temp),
              ChatEvent.sleep (2 ^ retry)] ++ s, ?_⟩
            simp only [chatModelLoop, hnet, if_neg hc, if_pos h429, if_neg hf,
              List.append_assoc, List.cons_append, List.nil_append]
            rw [hs]
            simp
        · by_cases hf : f = 0
          · subst hf
            exact ⟨[ChatEvent.post (mkPayload model prompt mt temp)],
              by simp [chatModelLoop, hnet, hc, h429]⟩
          · obtain ⟨s, hs⟩ := ih (retry + 1) (idx + 1) (trace ++
              [ChatEvent.post (mkPayload model prompt mt temp)])
            refine ⟨[ChatEvent.post (mkPayload model prompt mt temp)] ++ s, ?_⟩
            simp only [chatModelLoop, hnet, if_neg hc, if_neg h429, if_neg hf,
              List.append_assoc, List.cons_append, List.nil_append]
            rw [hs]
            simp
    | timeout =>
      by_cases hf : f = 0
      · subst hf
        exact ⟨[ChatEvent.post (mkPayload model prompt mt temp)],
          by simp [chatModelLoop, hnet]⟩
      · obtain ⟨s, hs⟩ := ih (retry + 1) (idx + 1) (trace ++
          [ChatEvent.post (mkPayload model prompt mt temp), ChatEvent.sleep 1])
        refine ⟨[ChatEvent.post (mkPayload model prompt mt temp), ChatEvent.sleep 1] ++ s, ?_⟩
        simp only [chatModelLoop, hnet, if_neg hf,
          List.append_assoc, List.cons_append, List.nil_append]
        rw [hs]
        simp
    | exn msg =>
      by_cases hf : f = 0
      · subst hf
        exact ⟨[ChatEvent.post (mkPayload model prompt mt temp)],
          by simp [chatModelLoop, hnet]⟩
      · obtain ⟨s, hs⟩ := ih (retry + 1) (idx + 1) (trace ++
          [ChatEvent.post (mkPayload model prompt mt temp), ChatEvent.sleep 1])
        refine ⟨[ChatEvent.post (mkPayload model prompt mt temp), ChatEvent.sleep 1] ++ s, ?_⟩
        simp only [chatModelLoop, hnet, if_neg hf,
          List.append_assoc, List.cons_append, List.nil_append]
        rw [hs]
        simp

/-- With at least one retry left, the model loop posts before anything else:
its output trace extends the input by a POST of this model first. -/
theorem chatModelLoop_trace_head (net : Nat → HttpResult) (prompt : String)
    (mt : Nat) (temp : Rat) (model : String) (fuel retry idx : Nat)
    (trace : List ChatEvent) (hfuel : fuel ≠ 0) :
    ∃ s, (chatModelLoop net prompt mt temp model fuel retry idx trace).2.2 =
      trace ++ ChatEvent.post (mkPayload model prompt mt temp) :: s := by
  cases fuel with
  | zero => exact absurd rfl hfuel
  | succ f =>
    cases hnet : net idx with
    | status code text =>
      by_cases hc : code = 200
      · subst hc; exact ⟨[], by simp [chatModelLoop, hnet]⟩
      · by_cases h429 : code = 429
        · by_cases hf : f = 0
          · subst hf
            exact ⟨[ChatEvent.sleep (2 ^ retry)], by simp [chatModelLoop, hnet, hc, h429]⟩
          · obtain ⟨s, hs⟩ := chatModelLoop_trace_mono net prompt mt temp model f
              (retry + 1) (idx + 1) (trace ++
                [ChatEvent.post (mkPayload model prompt mt temp), ChatEvent.sleep (2 ^ retry)])
            refine ⟨ChatEvent.sleep (2 ^ retry) :: s, ?_⟩
            simp only [chatModelLoop, hnet, if_neg hc, if_pos h429, if_neg hf,
              List.append_assoc, List.cons_append, List.nil_append]
            rw [hs]
            simp
        · by_cases hf : f = 0
          · subst hf
            exact ⟨[], by simp [chatModelLoop, hnet, hc, h429]⟩
          · obtain ⟨s, hs⟩ := chatModelLoop_trace_mono net prompt mt temp model f
              (retry + 1) (idx + 1) (trace ++ [ChatEvent.post (mkPayload model prompt mt temp)])
            refine ⟨s, ?_⟩
            simp only [chatModelLoop, hnet, if_neg hc, if_neg h429, if_neg hf,
              List.append_assoc, List.cons_append, List.nil_append]
            rw [hs]
            simp
    | timeout =>
      by_cases hf : f = 0
      · subst hf
        exact ⟨[], by simp [chatModelLoop, hnet]⟩
      · obtain ⟨s, hs⟩ := chatModelLoop_trace_mono net prompt mt temp model f
          (retry + 1) (idx + 1) (trace ++
            [ChatEvent.post (mkPayload model prompt mt temp), ChatEvent.sleep 1])
        refine ⟨ChatEvent.sleep 1 :: s, ?_⟩
        simp only [chatModelLoop, hnet, if_neg hf,
          List.append_assoc, List.cons_append, List.nil_append]
        rw [hs]
        simp
    | exn msg =>
      by_cases hf : f = 0
      · subst hf
        exact ⟨[], by simp [chatModelLoop, hnet]⟩
      · obtain ⟨s, hs⟩ := chatModelLoop_trace_mono net prompt mt temp model f
          (retry + 1) (idx + 1) (trace ++
            [ChatEvent.post (mkPayload model prompt mt temp), ChatEvent.sleep 1])
        refine ⟨ChatEvent.sleep 1 :: s, ?_⟩
        simp only [chatModelLoop, hnet, if_neg hf,
          List.append_assoc, List.cons_append, List.nil_append]
        rw [hs]
        simp

/-- The outer model loop also only appends to the incoming trace. -/
theorem chatModelsLoop_trace_mono (net : Nat → HttpResult) (prompt : String)
    (mt : Nat) (temp : Rat) :
    ∀ ms idx trace, ∃ s,
      (chatModelsLoop net prompt mt temp ms idx trace).2 = trace ++ s := by
  intro ms
  induction ms with
  | nil => intro idx trace; exact ⟨[], by simp [chatModelsLoop]⟩
  | cons m rest ih =>
    intro idx trace
    obtain ⟨s1, hs1⟩ := chatModelLoop_trace_mono net prompt mt temp m
      Config.MAX_RETRIES 0 idx trace
    simp only [chatModelsLoop]
    rcases hR : chatModelLoop net prompt mt temp m Config.MAX_RETRIES 0 idx trace with
      ⟨o, idx1, tr1⟩
    rw [hR] at hs1
    simp only at hs1
    cases o with
    | some text => exact ⟨s1, hs1⟩
    | none =>
      obtain ⟨s2, hs2⟩ := ih idx1 tr1
      dsimp only
      rw [hs2, hs1, List.append_assoc]
      exact ⟨s1 ++ s2, rfl⟩

/-- The first model of a nonempty attempt order is posted to before any
other event follows in the trace. -/
theorem chatModelsLoop_cons_trace_head (net : Nat → HttpResult) (prompt : String)
    (mt : Nat) (temp : Rat) (m : String) (rest : List String) (idx : Nat)
    (trace : List ChatEvent) :
    ∃ s, (chatModelsLoop net prompt mt temp (m :: rest) idx trace).2 =
      trace ++ ChatEvent.post (mkPayload m prompt mt temp) :: s := by
  obtain ⟨s1, hs1⟩ := chatModelLoop_trace_head net prompt mt temp m
    Config.MAX_RETRIES 0 idx trace (by decide)
  simp only [chatModelsLoop]
  rcases hR : chatModelLoop net prompt mt temp m Config.MAX_RETRIES 0 idx trace with
    ⟨o, idx1, tr1⟩
  rw [hR] at hs1
  simp only at hs1
  cases o with
  | some text => exact ⟨s1, hs1⟩
  | none =>
    obtain ⟨s2, hs2⟩ := chatModelsLoop_trace_mono net prompt mt temp rest idx1 tr1
    dsimp only
    rw [hs2, hs1, List.append_assoc]
    exact ⟨s1 ++ s2, by simp⟩

/-- If the first success of the whole net is at call `n`, inside this
model-loop window, the loop returns that text with the call index advanced
to `n + 1` and exactly `n + 1 - idx` further posts recorded. -/
theorem chatModelLoop_success (net : Nat → HttpResult) (prompt : String)
    (mt : Nat) (temp : Rat) (model : String) :
    ∀ fuel retry idx trace n text,
      idx ≤ n → n < idx + fuel →
      (∀ m, idx ≤ m → m < n → isSuccess (net m) = false) →
      net n = HttpResult.status 200 text →
      (chatModelLoop net prompt mt temp model fuel retry idx trace).1 = some text ∧
      (chatModelLoop net prompt mt temp model fuel retry idx trace).2.1 = n + 1 ∧
      countPosts (chatModelLoop net prompt mt temp model fuel retry idx trace).2.2 =
        countPosts trace + (n + 1 - idx) := by
  intro fuel
  induction fuel with
  | zero => intro retry idx trace n text h1 h2 _ _; omega
  | succ f ih =>
    intro retry idx trace n text h1 h2 hfail hn
    by_cases hni : n = idx
    · subst hni
      refine ⟨?_, ?_, ?_⟩ <;>
        simp [chatModelLoop, hn, countPosts, List.filter_append, isPost]
    · have hlt : idx < n := by omega
      have hf : ¬ f = 0 := by omega
      have hidx : isSuccess (net idx) = false := hfail idx (Nat.le_refl idx) hlt
      have hnext : ∀ m, idx + 1 ≤ m → m < n → isSuccess (net m) = false :=
        fun m hm1 hm2 => hfail m (by omega) hm2
      cases hnet : net idx with
      | status code text1 =>
        rw [hnet] at hidx
        have hc : ¬ code = 200 := by
          intro hcc; subst hcc; simp [isSuccess] at hidx
        by_cases h429 : code = 429
        · have hrec := ih (retry + 1) (idx + 1)
            (trace ++ [ChatEvent.post (mkPayload model prompt mt temp),
              ChatEvent.sleep (2 ^ retry)]) n text (by omega) (by omega) hnext hn
          simp only [chatModelLoop, hnet, if_neg hc, if_pos h429, if_neg hf,
            List.append_assoc, List.cons_append, List.nil_append]
          refine ⟨hrec.1, by rw [hrec.2.1], ?_⟩
          rw [hrec.2.2, countPosts_append]
          simp only [countPosts, List.filter, isPost]
          simp [countPosts]
          omega
        · have hrec := ih (retry + 1) (idx + 1)
            (trace ++ [ChatEvent.post (mkPayload model prompt mt temp)]) n text
            (by omega) (by omega) hnext hn
          simp only [chatModelLoop, hnet, if_neg hc, if_neg h429, if_neg hf]
          refine ⟨hrec.1, by rw [hrec.2.1], ?_⟩
          rw [hrec.2.2, countPosts_post]
          omega
      | timeout =>
        have hrec := ih (retry + 1) (idx + 1)
          (trace ++ [ChatEvent.post (mkPayload model prompt mt temp),
            ChatEvent.sleep 1]) n text (by omega) (by omega) hnext hn
        simp only [chatModelLoop, hnet, if_neg hf,
          List.append_assoc, List.cons_append, List.nil_append]
        refine ⟨hrec.1, by rw [hrec.2.1], ?_⟩
        rw [hrec.2.2, countPosts_append]
        simp [countPosts, isPost]
        omega
      | exn msg =>
        have hrec := ih (retry + 1) (idx + 1)
          (trace ++ [ChatEvent.post (mkPayload model prompt mt temp),
            ChatEvent.sleep 1]) n text (by omega) (by omega) hnext hn
        simp only [chatModelLoop, hnet, if_neg hf,
          List.append_assoc, List.cons_append, List.nil_append]
        refine ⟨hrec.1, by rw [hrec.2.1], ?_⟩
        rw [hrec.2.2, countPosts_append]
        simp [countPosts, isPost]
        omega

/-- If the first success of the net is at call `n`, within the budget of
the remaining attempt order, the outer loop returns that text after
exactly `n + 1 - idx` further posts. -/
theorem chatModelsLoop_success (net : Nat → HttpResult) (prompt : String)
    (mt : Nat) (temp : Rat) (n : Nat) (text : String)
    (hn : net n = HttpResult.status 200 text)
    (hfail : ∀ m, m < n → isSuccess (net m) = false) :
    ∀ ms idx trace,
      idx ≤ n → n < idx + Config.MAX_RETRIES * ms.length →
      (chatModelsLoop net prompt mt temp ms idx trace).1 = text ∧
      countPosts (chatModelsLoop net prompt mt temp ms idx trace).2 =
        countPosts trace + (n + 1 - idx) := by
  intro ms
  induction ms with
  | nil =>
    intro idx trace h1 h2
    simp only [List.length_nil, Nat.mul_zero] at h2
    omega
  | cons m rest ih =>
    intro idx trace h1 h2
    by_cases hwin : n < idx + Config.MAX_RETRIES
    · have hA := chatModelLoop_success net prompt mt temp m Config.MAX_RETRIES 0 idx
        trace n text h1 hwin (fun k _ hk2 => hfail k hk2) hn
      simp only [chatModelsLoop]
      rcases hR : chatModelLoop net prompt mt temp m Config.MAX_RETRIES 0 idx trace with
        ⟨o, idx1, tr1⟩
      rw [hR] at hA
      obtain ⟨hA1, hA2, hA3⟩ := hA
      simp only at hA1 hA2 hA3
      subst hA1
      exact ⟨rfl, hA3⟩
    · have hAll : ∀ k, idx ≤ k → k < idx + Config.MAX_RETRIES → isSuccess (net k) = false :=
        fun k hk1 hk2 => hfail k (by omega)
      have hE := chatModelLoop_no_success net prompt mt temp m Config.MAX_RETRIES 0 idx
        trace hAll
      simp only [chatModelsLoop]
      rcases hR : chatModelLoop net prompt mt temp m Config.MAX_RETRIES 0 idx trace with
        ⟨o, idx1, tr1⟩
      rw [hR] at hE
      obtain ⟨hE1, hE2, hE3⟩ := hE
      simp only at hE1 hE2 hE3
      subst hE1
      dsimp only
      simp only [List.length_cons, Config.MAX_RETRIES] at h2 hwin hE2 hE3 ⊢
      have hrest := ih idx1 tr1 (by omega) (by simp only [Config.MAX_RETRIES]; omega)
      refine ⟨hrest.1, ?_⟩
      rw [hrest.2]
      simp only [Config.MAX_RETRIES] at hrest ⊢
      omega

/-- One step of the outer loop when a model falls through. -/
theorem chatModelsLoop_cons_step (net : Nat → HttpResult) (prompt : String)
    (mt : Nat) (temp : Rat) (m : String) (rest : List String) (idx : Nat)
    (trace : List ChatEvent) (idx1 : Nat) (tr1 : List ChatEvent)
    (h : chatModelLoop net prompt mt temp m Config.MAX_RETRIES 0 idx trace =
      (none, idx1, tr1)) :
    chatModelsLoop net prompt mt temp (m :: rest) idx trace =
      chatModelsLoop net prompt mt temp rest idx1 tr1 := by
  simp only [chatModelsLoop, h]

/-- Three consecutive 429 responses: the first model loop sleeps 1, 2 and 4
seconds (2 to the retry index) after its three posts, then falls through. -/
theorem chatModelLoop_three_429 (net : Nat → HttpResult) (prompt : String)
    (mt : Nat) (temp : Rat) (model : String) (t0 t1 t2 : String)
    (h0 : net 0 = HttpResult.status 429 t0) (h1 : net 1 = HttpResult.status 429 t1)
    (h2 : net 2 = HttpResult.status 429 t2) :
    chatModelLoop net prompt mt temp model Config.MAX_RETRIES 0 0 [] =
      (none, 3,
        [ChatEvent.post (mkPayload model prompt mt temp), ChatEvent.sleep 1,
         ChatEvent.post (mkPayload model prompt mt temp), ChatEvent.sleep 2,
         ChatEvent.post (mkPayload model prompt mt temp), ChatEvent.sleep 4]) := by
  have e : Config.MAX_RETRIES = 0 + 1 + 1 + 1 := rfl
  rw [e]
  simp [chatModelLoop, h0, h1, h2]

/-- C6: with the default model order, three consecutive HTTP 429 responses
for the primary model make `chat` sleep 1s, 2s and 4s (2 ^ retry index)
after each of its three posts and then move to the next model (the seventh
event is the POST to the first fallback model); and whenever the first
successful attempt is the `n`-th HTTP call overall (status 200), `chat`
returns that response text immediately, having made exactly `n + 1` HTTP
calls in total — no further call to any model follows a 200. -/
theorem c6_chat_backoff_and_immediate_return (net : Nat → HttpResult) (prompt : String) :
    (∀ t0 t1 t2, net 0 = HttpResult.status 429 t0 → net 1 = HttpResult.status 429 t1 →
      net 2 = HttpResult.status 429 t2 →
      ∃ rest, (chat net prompt none none none).2 =
        ChatEvent.post (mkPayload Config.DEFAULT_LLM_MODEL prompt
            Config.MAX_TOKENS Config.TEMPERATURE) ::
        ChatEvent.sleep 1 ::
        ChatEvent.post (mkPayload Config.DEFAULT_LLM_MODEL prompt
            Config.MAX_TOKENS Config.TEMPERATURE) ::
        ChatEvent.sleep 2 ::
        ChatEvent.post (mkPayload Config.DEFAULT_LLM_MODEL prompt
            Config.MAX_TOKENS Config.TEMPERATURE) ::
        ChatEvent.sleep 4 ::
        ChatEvent.post (mkPayload "mixtral-8x7b-32768" prompt
            Config.MAX_TOKENS Config.TEMPERATURE) :: rest) ∧
    (∀ n text, n < Config.MAX_RETRIES * models.length →
      (∀ m, m < n → isSuccess (net m) = false) →
      net n = HttpResult.status 200 text →
      (chat net prompt none none none).1 = text ∧
      countPosts (chat net prompt none none none).2 = n + 1) := by
  constructor
  · intro t0 t1 t2 h0 h1 h2
    have hfm := chatModelLoop_three_429 net prompt Config.MAX_TOKENS Config.TEMPERATURE
      Config.DEFAULT_LLM_MODEL t0 t1 t2 h0 h1 h2
    obtain ⟨s, hs⟩ := chatModelsLoop_cons_trace_head net prompt Config.MAX_TOKENS
      Config.TEMPERATURE "mixtral-8x7b-32768" ["llama3-8b-8192", "llama2-70b-4096"] 3
      [ChatEvent.post (mkPayload Config.DEFAULT_LLM_MODEL prompt
          Config.MAX_TOKENS Config.TEMPERATURE), ChatEvent.sleep 1,
       ChatEvent.post (mkPayload Config.DEFAULT_LLM_MODEL prompt
          Config.MAX_TOKENS Config.TEMPERATURE), ChatEvent.sleep 2,
       ChatEvent.post (mkPayload Config.DEFAULT_LLM_MODEL prompt
          Config.MAX_TOKENS Config.TEMPERATURE), ChatEvent.sleep 4]
    refine ⟨s, ?_⟩
    show (chatModelsLoop net prompt (effMaxTokens none) (effTemperature none)
      (modelsToTry none) 0 []).2 = _
    have hmt : effMaxTokens none = Config.MAX_TOKENS := rfl
    have htp : effTemperature none = Config.TEMPERATURE := rfl
    have hms : modelsToTry none = Config.DEFAULT_LLM_MODEL ::
      ["mixtral-8x7b-32768", "llama3-8b-8192", "llama2-70b-4096"] := rfl
    rw [hmt, htp, hms]
    rw [chatModelsLoop_cons_step net prompt Config.MAX_TOKENS Config.TEMPERATURE
      Config.DEFAULT_LLM_MODEL _ 0 [] 3 _ hfm]
    rw [hs]
    simp
  · intro n text hn hfail hnet
    have hS := chatModelsLoop_success net prompt (effMaxTokens none)
      (effTemperature none) n text hnet hfail (modelsToTry none) 0 []
      (Nat.zero_le n) (by simpa [modelsToTry] using hn)
    refine ⟨hS.1, ?_⟩
    have := hS.2
    simpa [countPosts] using this

theorem c6_witness :
    (∃ rest,
      (chat (fun i => if i < 3 then HttpResult.status 429 "limited"
          else HttpResult.status 200 "ok") "p" none none none).2 =
        ChatEvent.post (mkPayload Config.DEFAULT_LLM_MODEL "p"
            Config.MAX_TOKENS Config.TEMPERATURE) ::
        ChatEvent.sleep 1 ::
        ChatEvent.post (mkPayload Config.DEFAULT_LLM_MODEL "p"
            Config.MAX_TOKENS Config.TEMPERATURE) ::
        ChatEvent.sleep 2 ::
        ChatEvent.post (mkPayload Config.DEFAULT_LLM_MODEL "p"
            Config.MAX_TOKENS Config.TEMPERATURE) ::
        ChatEvent.sleep 4 ::
        ChatEvent.post (mkPayload "mixtral-8x7b-32768" "p"
            Config.MAX_TOKENS Config.TEMPERATURE) :: rest) ∧
    (chat (fun i => if i < 3 then HttpResult.status 429 "limited"
        else HttpResult.status 200 "ok") "p" none none none).1 = "ok" ∧
    countPosts (chat (fun i => if i < 3 then HttpResult.status 429 "limited"
        else HttpResult.status 200 "ok") "p" none none none).2 = 4 :=
  ⟨(c6_chat_backoff_and_immediate_return (fun i => if i < 3 then
      HttpResult.status 429 "limited" else HttpResult.status 200 "ok") "p").1
      "limited" "limited" "limited" rfl rfl rfl,
   (c6_chat_backoff_and_immediate_return (fun i => if i < 3 then
      HttpResult.status 429 "limited" else HttpResult.status 200 "ok") "p").2
      3 "ok" (by decide) (by decide) rfl⟩

/-- C9 counterexample: the claim says every successful completion text is
wrapped with source-count and query-type annotations, but the source only
wraps when the text is nonempty and contains none of the words "sorry",
"error", "failed", "unavailable" (case-insensitively): a successful
completion whose text happens to start with "Sorry" is returned behind the
plain Magical Response prefix, without the annotations. -/
theorem c9_counterexample :
    (generate_response ⟨true, fun _ => Except.ok [exD3]⟩
        (fun _ => HttpResult.status 200 "Sorry, I do not know.") "expecto patronum").1 =
      magicalResponsePrefix ++ "Sorry, I do not know." ∧
    magicalResponsePrefix ++ "Sorry, I do not know." ≠
      format_final "Sorry, I do not know." 1 "general" := by
  exact ⟨rfl, by decide⟩

/-- C9 as amended: when the completion client returns text `r` for the
composed prompt, `generate_response` wraps `r` with the source-count and
query-type annotations exactly when `r` is nonempty and contains none of
the error words "sorry", "error", "failed", "unavailable"
(case-insensitively); otherwise it returns `r` behind the fixed Magical
Response prefix, without annotations. -/
theorem c9_generate_response_wrapping (st : RAGState) (net : Nat → HttpResult)
    (query : String) (parts : List String) (r : String)
    (hq : pyStrip query ≠ "") (hinit : st.is_initialized = true)
    (hret : retrieve_context st (pyStrip query) (some (analyze_query (pyStrip query))) =
      Except.ok parts)
    (hne : parts ≠ [])
    (hr : (chat net (create_enhanced_prompt (pyStrip query) parts
      (analyze_query (pyStrip query))) none none none).1 = r) :
    (r ≠ "" ∧ containsErrorWord r = false →
      (generate_response st net query).1 =
        format_final r parts.length (analyze_query (pyStrip query)).type) ∧
    ((r = "" ∨ containsErrorWord r = true) →
      (generate_response st net query).1 = magicalResponsePrefix ++ r) := by
  have hemp : parts.isEmpty = false := by
    cases parts with
    | nil => exact absurd rfl hne
    | cons a l => rfl
  constructor
  · intro hgood
    simp [generate_response, hq, hinit, hret, hemp, hr, hgood.1, hgood.2]
  · intro hbad
    rcases hbad with hb | hb
    · simp [generate_response, hq, hinit, hret, hemp, hr, hb]
    · simp [generate_response, hq, hinit, hret, hemp, hr, hb]

theorem c9_witness :
    (generate_response ⟨true, fun _ => Except.ok [exD3]⟩
        (fun _ => HttpResult.status 200 "Dobby is a free elf.") "expecto patronum").1 =
      format_final "Dobby is a free elf." 1
        (analyze_query (pyStrip "expecto patronum")).type :=
  (c9_generate_response_wrapping ⟨true, fun _ => Except.ok [exD3]⟩
    (fun _ => HttpResult.status 200 "Dobby is a free elf.") "expecto patronum"
    [exD3] "Dobby is a free elf."
    (by decide) rfl rfl (by decide) rfl).1 ⟨by decide, by decide⟩

end HPVerify
